import Mathlib

/-!
Verification of the cert-manager external PKI issuer (Go repository
`bvorland/cert-manager-external-issuer`) against its natural-language
specification.  The development shallowly embeds the signer package
(`PKISigner`, `MockCASigner`), the standalone Mock CA server's legacy
`/cgi/pki.cgi` handler, and the `CertificateRequest` lifecycle controller.

Modelling conventions:
* Go strings are Lean `String`; the response byte stream handled by
  `extractCAChain` / `parseResponse` is a `List Char` so that the
  `strings.Index`-based scanning loop can be stated and proved about.
* Go machine integers that carry configuration (`DNSStartIndex`,
  `DNSMaxCount`, validity days) are `Int`; certificate serial numbers
  (`*big.Int` drawn below `1 << 128`) are `Nat`.
* `time.Time` is an `Int` of seconds; `t.AddDate(y, m, d)` is modelled as
  adding fixed-length years/months/days (`86400`-second days), which is the
  Go behaviour in a fixed-offset (DST-free) time zone; the claims under
  verification only exercise the day component.
* Randomness (`crypto/rand`) and the x509/pem library calls are oracles:
  the random serial, the generated RSA key, and the CSR parse outcome are
  explicit arguments, and `x509.CreateCertificate` + `pem.EncodeToMemory`
  are modelled by the injective constructor `PEMData.cert` applied to the
  certificate template, since the template's fields are what the library
  copies into the issued certificate.
-/

namespace ExternalIssuer

/-! ## Generic Go string helpers (strings.Index, strings.TrimSpace) -/

/-- Index of the first occurrence of `pat` in `s` (Go `strings.Index`,
with `none` for Go's `-1`). -/
def indexOfSub (pat : List Char) : List Char → Option Nat
  | [] => if pat.isPrefixOf ([] : List Char) then some 0 else none
  | c :: rest =>
    if pat.isPrefixOf (c :: rest) then some 0
    else (indexOfSub pat rest).map (· + 1)

/-- Go `strings.Contains`. -/
def containsSub (pat s : List Char) : Bool := (indexOfSub pat s).isSome

/-- The ASCII white-space characters of Go `unicode.IsSpace` (the non-ASCII
Unicode spaces are not modelled; no input in this development contains
them). -/
def goIsSpace (c : Char) : Bool :=
  c = ' ' || c = '\t' || c = '\n' || c = '\x0b' || c = '\x0c' || c = '\r'

/-- Go `strings.TrimSpace` on a character list. -/
def trimSpaceChars (s : List Char) : List Char :=
  ((s.dropWhile goIsSpace).reverse.dropWhile goIsSpace).reverse

/-- Go `strings.TrimSpace` on a string. -/
def goTrimSpace (s : String) : String := String.mk (trimSpaceChars s.toList)

/-- Go `strings.ToUpper` (ASCII; the DN keys it is applied to are ASCII). -/
def goUpper (s : String) : String := String.mk (s.toList.map Char.toUpper)

/-- First index of character `c` (Go `strings.Index` with a one-character
pattern, `none` for `-1`). -/
def charIndex (c : Char) (l : List Char) : Option Nat := l.findIdx? (fun x => x = c)

/-- Go `strings.Split` with a one-character separator (the only separators
the repository splits on are `";"` and `"/"`); `splitOnChar sep [] = [[]]`
matches Go's `Split("", sep) = [""]`. -/
def splitOnChar (sep : Char) : List Char → List (List Char)
  | [] => [[]]
  | c :: rest =>
    if c = sep then [] :: splitOnChar sep rest
    else
      match splitOnChar sep rest with
      | [] => [[c]]
      | h :: t => (c :: h) :: t

/-! ## PKI configuration (`PKIConfig` in `internal/signer`) -/

/-- `PKIParameters`: how to build the request for the external PKI API. -/
structure PKIParameters where
  paramFormat : String
  newCertParam : String
  newCertValue : String
  renewCertParam : String
  renewCertValue : String
  subjectParam : String
  subjectDNFormat : String
  dnsPrefix : String
  dnsStartIndex : Int
  dnsMaxCount : Int
  getCertParam : String
  getKeyParam : String
  getCSRParam : String
deriving DecidableEq

/-- `PKIResponse`: how to parse the PKI API response. -/
structure PKIResponse where
  format : String
  certificateField : String
  chainField : String
deriving DecidableEq

/-- `PKIConfig` (auth and TLS configuration only affect the HTTP transport,
which is an oracle here, so they are not carried). -/
structure PKIConfig where
  baseURL : String
  method : String
  parameters : PKIParameters
  response : PKIResponse
deriving DecidableEq

/-! ## The parsed CSR (`x509.CertificateRequest`) -/

/-- `pkix.Name` with the attribute fields the repository reads. -/
structure PkixName where
  commonName : String
  organization : List String
  organizationalUnit : List String
  locality : List String
  province : List String
  country : List String
deriving DecidableEq

/-- A parsed `x509.CertificateRequest`.  `signatureValid` records whether
`csr.CheckSignature()` would succeed (the x509 library verifies the embedded
signature against the CSR's own public key; parsing alone does not). -/
structure X509CertificateRequest where
  subject : PkixName
  dnsNames : List String
  ipAddresses : List String
  uris : List String
  emailAddresses : List String
  signatureValid : Bool
deriving DecidableEq

/-! ## Subject DN builders (`buildSubjectDNComma`, `buildSubjectDNSlash`) -/

/-- The parts list built by `buildSubjectDNComma`: `CN`, `OU*`, `O*`, `L*`,
`ST*`, `C*` in source order, with the first-DNS-name fallback. -/
def commaParts (csr : X509CertificateRequest) : List String :=
  let parts :=
    (if csr.subject.commonName ≠ "" then ["CN=" ++ csr.subject.commonName] else [])
      ++ csr.subject.organizationalUnit.map (fun v => "OU=" ++ v)
      ++ csr.subject.organization.map (fun v => "O=" ++ v)
      ++ csr.subject.locality.map (fun v => "L=" ++ v)
      ++ csr.subject.province.map (fun v => "ST=" ++ v)
      ++ csr.subject.country.map (fun v => "C=" ++ v)
  if parts = [] ∧ csr.dnsNames ≠ [] then ["CN=" ++ csr.dnsNames.headD ""] else parts

/-- `buildSubjectDNComma`: comma format `CN=...,O=...,C=...`. -/
def buildSubjectDNComma (csr : X509CertificateRequest) : String :=
  String.intercalate "," (commaParts csr)

/-- The parts list built by `buildSubjectDNSlash`: `/C*`, `/ST*`, `/L*`,
`/O*`, `/OU*`, `/CN` in source order, with the first-DNS-name fallback. -/
def slashParts (csr : X509CertificateRequest) : List String :=
  let parts :=
    csr.subject.country.map (fun v => "/C=" ++ v)
      ++ csr.subject.province.map (fun v => "/ST=" ++ v)
      ++ csr.subject.locality.map (fun v => "/L=" ++ v)
      ++ csr.subject.organization.map (fun v => "/O=" ++ v)
      ++ csr.subject.organizationalUnit.map (fun v => "/OU=" ++ v)
      ++ (if csr.subject.commonName ≠ "" then ["/CN=" ++ csr.subject.commonName] else [])
  if parts = [] ∧ csr.dnsNames ≠ [] then ["/CN=" ++ csr.dnsNames.headD ""] else parts

/-- `buildSubjectDNSlash`: legacy slash format
`/C=US/ST=California/.../CN=example.com` (join with empty separator). -/
def buildSubjectDNSlash (csr : X509CertificateRequest) : String :=
  String.join (slashParts csr)

/-- `buildSubjectDN`: dispatch on `SubjectDNFormat`. -/
def buildSubjectDN (cfg : PKIParameters) (csr : X509CertificateRequest) : String :=
  if cfg.subjectDNFormat = "slash" then buildSubjectDNSlash csr
  else buildSubjectDNComma csr

/-! ## Request parameters (`url.Values`, `buildRequestParams`) -/

/-- Go `url.Values` (a map from key to value list); the list order is
insertion order, but no theorem relies on it — map iteration order is
quantified separately, since Go ranges over maps in unspecified order. -/
abbrev Values := List (String × List String)

/-- `url.Values.Set`: replace the binding of `k` with the one-element list
`[v]`, or add it. -/
def valuesSet (ps : Values) (k v : String) : Values :=
  if ps.any (fun kv => kv.1 = k) then
    ps.map (fun kv => if kv.1 = k then (k, [v]) else kv)
  else ps ++ [(k, [v])]

/-- Map lookup on `url.Values`. -/
def valuesGet (ps : Values) (k : String) : Option (List String) :=
  (ps.find? (fun kv => kv.1 == k)).map (fun kv => kv.2)

/-- The key set of a `url.Values`. -/
def valuesKeys (ps : Values) : List String := ps.map (fun kv => kv.1)

/-- The SAN-parameter emission loop of `buildRequestParams`
(`for i, dns := range csr.DNSNames { if i >= maxCount { break }; params.Set(...) }`),
as the sequence of `Set` calls it performs. -/
def dnsLoop (pfx : String) (startIdx maxCount : Int) : Nat → List String → List (String × String)
  | _, [] => []
  | i, d :: rest =>
    if maxCount ≤ (i : Int) then []
    else (pfx ++ toString (startIdx + (i : Int)), d) :: dnsLoop pfx startIdx maxCount (i + 1) rest

/-- The SAN parameters `buildRequestParams` emits: nothing when the CSR has
no DNS names or the prefix is empty; otherwise the loop with defaulted
start index (2 when configured 0) and cap (20 when configured 0). -/
def sanEmissions (cfg : PKIParameters) (csr : X509CertificateRequest) : List (String × String) :=
  if csr.dnsNames ≠ [] ∧ cfg.dnsPrefix ≠ "" then
    let startIdx := if cfg.dnsStartIndex = 0 then 2 else cfg.dnsStartIndex
    let maxCount := if cfg.dnsMaxCount = 0 then 20 else cfg.dnsMaxCount
    dnsLoop cfg.dnsPrefix startIdx maxCount 0 csr.dnsNames
  else []

/-- `buildRequestParams`: action parameter, subject DN, SAN parameters,
certificate-format parameter, each via `url.Values.Set`. -/
def buildRequestParams (cfg : PKIParameters) (csr : X509CertificateRequest) : Values :=
  let p : Values := []
  let p := if cfg.newCertParam ≠ "" then valuesSet p cfg.newCertParam cfg.newCertValue else p
  let subject := buildSubjectDN cfg csr
  let p := if cfg.subjectParam ≠ "" ∧ subject ≠ "" then valuesSet p cfg.subjectParam subject else p
  let p := (sanEmissions cfg csr).foldl (fun ps kv => valuesSet ps kv.1 kv.2) p
  let p := if cfg.getCertParam ≠ "" then valuesSet p cfg.getCertParam "" else p
  p

/-! ## Legacy request-body serialization (the `semicolon` branch of
`makeRequest`).  Go iterates `for key, values := range params` over a map,
whose iteration order is unspecified; the order is therefore an explicit
argument, to be quantified over all permutations of the key set. -/

/-- The `key=value` (or bare `key`, when the value is empty) parts the
semicolon branch of `makeRequest` collects, visiting keys in `order`. -/
def semicolonParts (params : Values) (order : List String) : List String :=
  order.filterMap (fun k =>
    match valuesGet params k with
    | some (v :: _) => some (if v ≠ "" then k ++ "=" ++ v else k)
    | some [] => none
    | none => none)

/-- The serialized request body in the legacy `semicolon` format
(`strings.Join(parts, ";")`). -/
def semicolonBody (params : Values) (order : List String) : String :=
  String.intercalate ";" (semicolonParts params order)

/-! ## Response parsing (`parseResponse`, `extractCAChain`) -/

/-- The PEM armor line `-----BEGIN CERTIFICATE-----` as a character list. -/
def beginMarker : List Char := "-----BEGIN CERTIFICATE-----".toList

/-- The PEM armor line `-----END CERTIFICATE-----` as a character list. -/
def endMarker : List Char := "-----END CERTIFICATE-----".toList

/-- `parseResponse`: the configured format is read (defaulted to `"pem"`)
but then not consulted — every response is required to contain the raw
`-----BEGIN CERTIFICATE-----` marker and is returned unchanged. -/
def parseResponse (resp : PKIResponse) (body : List Char) : Except String (List Char) :=
  let _format := if resp.format = "" then "pem" else resp.format
  if containsSub beginMarker body then Except.ok body
  else Except.error "no certificate in response"

/-- The scanning loop of `extractCAChain`: find the next `BEGIN` marker,
find the following `END` marker, slice the block, skip the first block,
collect the space-trimmed rest. -/
def extractLoop (remaining : List Char) (isFirst : Bool) (acc : List (List Char)) :
    List (List Char) :=
  match h1 : indexOfSub beginMarker remaining with
  | none => acc
  | some start =>
    match indexOfSub endMarker (remaining.drop start) with
    | none => acc
    | some e =>
      let cert := (remaining.drop start).take (e + endMarker.length)
      extractLoop (remaining.drop (start + e + endMarker.length)) false
        (if isFirst then acc else acc ++ [trimSpaceChars cert])
termination_by remaining.length
decreasing_by
  have hne : remaining ≠ [] := by
    intro h
    rw [h, show indexOfSub beginMarker [] = none from by decide] at h1
    exact Option.noConfusion h1
  have hlen : 0 < remaining.length := List.length_pos.mpr hne
  have hend : 0 < endMarker.length := by decide
  simp only [List.length_drop]
  omega

/-- `extractCAChain`: every certificate block after the first, trimmed and
joined by a newline; `none` (Go `nil`) when no block follows the first. -/
def extractCAChain (fullChain : List Char) : Option (List Char) :=
  let caCerts := extractLoop fullChain true []
  if caCerts = [] then none else some (List.intercalate ['\n'] caCerts)

/-! ## `PKISigner.Sign`

The PEM decode and x509 parse of the incoming CSR PEM are oracles:
`decoded = none` models `pem.Decode` finding no block; otherwise it carries
the block type and the `x509.ParseCertificateRequest` outcome.  The HTTP
round trip of `makeRequest` is the oracle `transport`, consuming the built
parameter set and returning either a transport failure (`none`) or a status
code and response body; the body serialization it would put on the wire is
`semicolonBody` (legacy format) and is verified separately.  `PKISigner.Sign`
never uses its `validityDays` argument. -/
def pkiSign (cfg : PKIConfig) (decoded : Option (String × Option X509CertificateRequest))
    (transport : Values → Option (Nat × List Char)) (_validityDays : Int) :
    Except String (List Char × Option (List Char)) :=
  match decoded with
  | none => Except.error "invalid CSR PEM"
  | some (blockType, parseResult) =>
    if blockType ≠ "CERTIFICATE REQUEST" then Except.error "invalid CSR PEM"
    else
      match parseResult with
      | none => Except.error "failed to parse CSR"
      | some csr =>
        let params := buildRequestParams cfg.parameters csr
        match transport params with
        | none => Except.error "request failed"
        | some (status, respBody) =>
          if status ≠ 200 then Except.error "PKI API error"
          else
            match parseResponse cfg.response respBody with
            | Except.error e => Except.error e
            | Except.ok certPEM => Except.ok (certPEM, extractCAChain certPEM)

/-! ## Certificates and PEM payloads (the Mock CA side) -/

/-- The upper bound of `generateSerialNumber`
(`new(big.Int).Lsh(big.NewInt(1), 128)`); `rand.Int(rand.Reader, limit)`
draws uniformly from `[0, limit)`. -/
def serialNumberLimit : Nat := 1 <<< 128

/-- Seconds-based model of Go `t.AddDate(years, months, days)` (fixed-length
365-day years, 30-day months, 86400-second days; the verified claims only
exercise the `days` component, which this models exactly for a fixed-offset
time zone). -/
def addDate (t : Int) (years months days : Int) : Int :=
  t + years * 31536000 + months * 2592000 + days * 86400

/-- An `x509.Certificate` template as the repository fills it in; the x509
library copies these fields into the issued certificate. -/
structure CertTemplate where
  serialNumber : Nat
  subject : PkixName
  notBefore : Int
  notAfter : Int
  keyUsageDigitalSignature : Bool
  keyUsageKeyEncipherment : Bool
  keyUsageCertSign : Bool
  keyUsageCRLSign : Bool
  extKeyUsageServerAuth : Bool
  extKeyUsageClientAuth : Bool
  basicConstraintsValid : Bool
  isCA : Bool
  maxPathLen : Int
  dnsNames : List String
  ipAddresses : List String
  uris : List String
  emailAddresses : List String
deriving DecidableEq

/-- A PEM-encoded payload (`pem.EncodeToMemory`): certificate bytes are
determined by, and determine, the certificate data, so two payloads are
byte-identical exactly when the constructors and their arguments agree. -/
inductive PEMData where
  | cert (c : CertTemplate)
  | rsaKey (k : Nat)
deriving DecidableEq

/-! ## `MockCASigner` (in-process self-signing CA) -/

/-- The `MockCASigner` struct: a lazily generated CA. -/
structure MockCASigner where
  generated : Bool
  caCert : Option CertTemplate
  caPEM : Option PEMData
  caKeyPEM : Option PEMData
deriving DecidableEq

/-- `ensureCA`: generate the CA key, serial and self-signed certificate on
first use.  `keyGen` is the `rsa.GenerateKey` oracle (`none` = failure),
`caSerial` the random-serial oracle, `now` the clock. -/
def ensureCA (s : MockCASigner) (keyGen : Option Nat) (caSerial : Nat) (now : Int) :
    Except String MockCASigner :=
  if s.generated then Except.ok s
  else
    match keyGen with
    | none => Except.error "failed to generate CA key"
    | some key =>
      let caTemplate : CertTemplate :=
        { serialNumber := caSerial
          subject := { commonName := "External Issuer Mock CA"
                       organization := ["cert-manager-external-issuer"]
                       organizationalUnit := [], locality := [], province := [], country := [] }
          notBefore := now - 3600
          notAfter := addDate now 10 0 0
          keyUsageDigitalSignature := true, keyUsageKeyEncipherment := false
          keyUsageCertSign := true, keyUsageCRLSign := true
          extKeyUsageServerAuth := false, extKeyUsageClientAuth := false
          basicConstraintsValid := true, isCA := true, maxPathLen := 1
          dnsNames := [], ipAddresses := [], uris := [], emailAddresses := [] }
      Except.ok { generated := true
                  caCert := some caTemplate
                  caPEM := some (PEMData.cert caTemplate)
                  caKeyPEM := some (PEMData.rsaKey key) }

/-- `MockCASigner.Sign`: ensure the CA, decode the PEM (`decoded = none`
models no PEM block; the block type is not checked here, unlike
`PKISigner.Sign`), parse the CSR, verify the CSR signature
(`csr.CheckSignature()`), then issue a leaf from the CSR with the fixed key
usages and the `[now − 1min, now + validityDays]` window.  Returns the leaf
PEM and the stored CA PEM. -/
def mockCASign (s : MockCASigner) (keyGen : Option Nat) (caSerial : Nat)
    (decoded : Option (String × Option X509CertificateRequest))
    (leafSerial : Nat) (now : Int) (validityDays : Int) :
    Except String (PEMData × Option PEMData) :=
  match ensureCA s keyGen caSerial now with
  | Except.error e => Except.error ("CA not ready: " ++ e)
  | Except.ok s' =>
    match decoded with
    | none => Except.error "invalid CSR PEM"
    | some (_blockType, parseResult) =>
      match parseResult with
      | none => Except.error "failed to parse CSR"
      | some csr =>
        if csr.signatureValid = false then
          Except.error "CSR signature validation failed"
        else
          let certTemplate : CertTemplate :=
            { serialNumber := leafSerial
              subject := csr.subject
              notBefore := now - 60
              notAfter := addDate now 0 0 validityDays
              keyUsageDigitalSignature := true, keyUsageKeyEncipherment := true
              keyUsageCertSign := false, keyUsageCRLSign := false
              extKeyUsageServerAuth := true, extKeyUsageClientAuth := true
              basicConstraintsValid := true, isCA := false, maxPathLen := 0
              dnsNames := csr.dnsNames, ipAddresses := csr.ipAddresses
              uris := csr.uris, emailAddresses := csr.emailAddresses }
          Except.ok (PEMData.cert certTemplate, s'.caPEM)

/-! ## The standalone Mock CA server: legacy `/cgi/pki.cgi` front-end -/

/-- A Go `map[string]string` as an association list with overwrite-on-insert
(insertion order is never observed by the handler: it only looks keys up). -/
abbrev PMap := List (String × String)

/-- `params[key] = value` (overwrite or add). -/
def mapInsert (m : PMap) (k v : String) : PMap :=
  if m.any (fun kv => kv.1 = k) then
    m.map (fun kv => if kv.1 = k then (k, v) else kv)
  else m ++ [(k, v)]

/-- `value, ok := params[key]` — the lookup with its presence bit. -/
def mapFind (m : PMap) (k : String) : Option String :=
  (m.find? (fun kv => kv.1 == k)).map (fun kv => kv.2)

/-- `params[key]` — a missing key yields the zero value `""`. -/
def mapGet (m : PMap) (k : String) : String := (mapFind m k).getD ""

/-- `_, ok := params[key]`. -/
def mapHas (m : PMap) (k : String) : Bool := (mapFind m k).isSome

/-- `parsePKIParams`: split the body on `;`, trim each part, and record
`key=value` when `=` occurs at a positive index, else the bare part with an
empty value. -/
def parsePKIParams (body : String) : PMap :=
  (splitOnChar ';' body.toList).foldl (fun params part0 =>
    let part := trimSpaceChars part0
    if part = [] then params
    else
      match charIndex '=' part with
      | some idx =>
        if 0 < idx then
          let key := goTrimSpace (String.mk (part.take idx))
          let value := goTrimSpace (String.mk (part.drop (idx + 1)))
          mapInsert params key value
        else mapInsert params (String.mk part) ""
      | none => mapInsert params (String.mk part) "") []

/-- `parseDN`: parse `/C=US/ST=.../CN=example.com` into a `pkix.Name`;
unknown keys and parts without `=` at a positive index are skipped. -/
def parseDN (dn : String) : PkixName :=
  (splitOnChar '/' dn.toList).foldl (fun name part0 =>
    let part := trimSpaceChars part0
    if part = [] then name
    else
      match charIndex '=' part with
      | some idx =>
        if 0 < idx then
          let key := goUpper (goTrimSpace (String.mk (part.take idx)))
          let value := goTrimSpace (String.mk (part.drop (idx + 1)))
          if key = "CN" then { name with commonName := value }
          else if key = "O" then { name with organization := name.organization ++ [value] }
          else if key = "OU" then
            { name with organizationalUnit := name.organizationalUnit ++ [value] }
          else if key = "L" then { name with locality := name.locality ++ [value] }
          else if key = "ST" then { name with province := name.province ++ [value] }
          else if key = "C" then { name with country := name.country ++ [value] }
          else name
        else name
      | none => name)
    { commonName := "", organization := [], organizationalUnit := []
      locality := [], province := [], country := [] }

/-- A stored issuance in the server's `certStore` (keyed by Common Name). -/
structure StoredCert where
  certPEM : PEMData
  keyPEM : Option PEMData
  csr : Option PEMData
  subject : String
deriving DecidableEq

/-- The mutable server state the legacy handler touches. -/
structure MockCAServer where
  caPEM : PEMData
  certStore : List (String × StoredCert)
  signCount : Int
  certValidityDays : Int
deriving DecidableEq

/-- `certStore[cn]` lookup. -/
def storeGet (store : List (String × StoredCert)) (cn : String) : Option StoredCert :=
  (store.find? (fun kv => kv.1 == cn)).map (fun kv => kv.2)

/-- `certStore[cn] = stored` (overwrite or add). -/
def storeSet (store : List (String × StoredCert)) (cn : String) (sc : StoredCert) :
    List (String × StoredCert) :=
  if store.any (fun kv => kv.1 = cn) then
    store.map (fun kv => if kv.1 = cn then (cn, sc) else kv)
  else store ++ [(cn, sc)]

/-- The handler's response: HTTP status, the sequence of PEM payloads
written (`w.Write` calls), and the `http.Error` text when failing. -/
structure PKIHTTPResponse where
  status : Nat
  body : List PEMData
  errText : String
deriving DecidableEq

/-- The `DNS2..DNS20` SAN collection loop of `handlePKISign`. -/
def collectDNS (params : PMap) : List String :=
  ((List.range 19).map (fun j => 2 + j)).filterMap (fun i =>
    match mapFind params ("DNS" ++ toString i) with
    | some v => if v ≠ "" then some v else none
    | none => none)

/-- The leaf template `handlePKISign` fills in on its generation path. -/
def pkiLeafTemplate (ca : MockCAServer) (subject : PkixName) (dnsNames : List String)
    (serial : Nat) (now : Int) : CertTemplate :=
  { serialNumber := serial
    subject := subject
    notBefore := now - 60
    notAfter := addDate now 0 0 ca.certValidityDays
    keyUsageDigitalSignature := true, keyUsageKeyEncipherment := true
    keyUsageCertSign := false, keyUsageCRLSign := false
    extKeyUsageServerAuth := true, extKeyUsageClientAuth := true
    basicConstraintsValid := true, isCA := false, maxPathLen := 0
    dnsNames := dnsNames, ipAddresses := [], uris := [], emailAddresses := [] }

/-- The certificate-generation tail of `handlePKISign` (serial, 2048-bit
key pair, leaf template, PEM encode, store under the CN, bump the counter,
write leaf + CA). -/
def pkiGenerate (ca : MockCAServer) (subject : PkixName) (subjectDN : String)
    (dnsNames : List String) (serial : Nat) (key : Nat) (now : Int) :
    PKIHTTPResponse × MockCAServer :=
  let certTemplate := pkiLeafTemplate ca subject dnsNames serial now
  let certPEM := PEMData.cert certTemplate
  let keyPEM := PEMData.rsaKey key
  let stored : StoredCert :=
    { certPEM := certPEM, keyPEM := some keyPEM, csr := none, subject := subjectDN }
  (⟨200, [certPEM, ca.caPEM], ""⟩,
   { ca with certStore := storeSet ca.certStore subject.commonName stored
             signCount := ca.signCount + 1 })

/-- `handlePKISign` on a POST body: parse the semicolon parameters, require
a subject DN with a CN, serve the `getCERT`/`getKEY`/`getCSR` retrievals
from the store, return the stored certificate (plus CA) for `new=1` without
`renew=1` when one exists, and otherwise generate, store and return a fresh
certificate.  `serial`, `key` and `now` are the randomness/clock oracles
consumed only on the generation path. -/
def handlePKISign (ca : MockCAServer) (body : String) (serial : Nat) (key : Nat) (now : Int) :
    PKIHTTPResponse × MockCAServer :=
  let params := parsePKIParams body
  let subjectDN := mapGet params "subject"
  if subjectDN = "" then (⟨400, [], "subject parameter is required"⟩, ca)
  else
    let subject := parseDN subjectDN
    let cn := subject.commonName
    if cn = "" then (⟨400, [], "subject must contain CN"⟩, ca)
    else
      let dnsNames := cn :: collectDNS params
      let isNew := mapGet params "new" = "1"
      let isRenew := mapGet params "renew" = "1"
      if mapHas params "getCERT" then
        match storeGet ca.certStore cn with
        | none => (⟨404, [], "Certificate not found"⟩, ca)
        | some sc => (⟨200, [sc.certPEM], ""⟩, ca)
      else if mapHas params "getKEY" then
        match storeGet ca.certStore cn with
        | none => (⟨404, [], "Key not found"⟩, ca)
        | some sc =>
          match sc.keyPEM with
          | none => (⟨404, [], "Key not found"⟩, ca)
          | some kp => (⟨200, [kp], ""⟩, ca)
      else if mapHas params "getCSR" then
        match storeGet ca.certStore cn with
        | none => (⟨404, [], "CSR not found"⟩, ca)
        | some sc =>
          match sc.csr with
          | none => (⟨404, [], "CSR not found"⟩, ca)
          | some cp => (⟨200, [cp], ""⟩, ca)
      else if isNew ∧ ¬ isRenew then
        match storeGet ca.certStore cn with
        | some sc => (⟨200, [sc.certPEM, ca.caPEM], ""⟩, ca)
        | none => pkiGenerate ca subject subjectDN dnsNames serial key now
      else pkiGenerate ca subject subjectDN dnsNames serial key now

/-! ## `CertificateRequestReconciler.Reconcile` (lifecycle controller)

The string constants are the values of the cert-manager API constants the
controller compares against (`cmapi.CertificateRequestConditionReady` etc.,
from the upstream `cert-manager` library). -/

def externalIssuerAPIGroup : String := "external-issuer.io"

def issuerKindName : String := "ExternalIssuer"

def clusterIssuerKindName : String := "ExternalClusterIssuer"

def conditionReady : String := "Ready"

def conditionApproved : String := "Approved"

def conditionDenied : String := "Denied"

def conditionTrue : String := "True"

def reasonFailed : String := "Failed"

def reasonDenied : String := "Denied"

/-- A `CertificateRequestCondition` (type/status/reason/message). -/
structure CRCondition where
  condType : String
  status : String
  reason : String
  message : String
deriving DecidableEq

/-- The parts of a cert-manager `CertificateRequest` the controller reads
and writes: the issuer reference, the status certificate/CA bytes, and the
condition list. -/
structure CertificateRequest where
  issuerGroup : String
  issuerKind : String
  issuerName : String
  certificate : List Char
  ca : List Char
  conditions : List CRCondition
deriving DecidableEq

/-- `isInTerminalState`: some `Ready` condition has status `True` or reason
`Failed` or `Denied`. -/
def isInTerminalState (cr : CertificateRequest) : Bool :=
  cr.conditions.any (fun c =>
    c.condType = conditionReady &&
      (c.status = conditionTrue || c.reason = reasonFailed || c.reason = reasonDenied))

/-- `isCertificateRequestApproved`: some `Approved` condition is `True`. -/
def isCertificateRequestApproved (cr : CertificateRequest) : Bool :=
  cr.conditions.any (fun c => c.condType = conditionApproved && c.status = conditionTrue)

/-- `isCertificateRequestDenied`: some `Denied` condition is `True`. -/
def isCertificateRequestDenied (cr : CertificateRequest) : Bool :=
  cr.conditions.any (fun c => c.condType = conditionDenied && c.status = conditionTrue)

/-- The resolved issuer spec (`ExternalIssuerSpec`) the controller uses. -/
structure IssuerSpecModel where
  signerType : String
  hasConfigMapRef : Bool
  authSecretName : String
  url : String
deriving DecidableEq

/-- The environment of one `Reconcile` invocation: the outcome of issuer
resolution and, on the signing path, of config/auth loading and the
signer's `CheckHealth`/`Sign` calls (all network/API oracles). -/
structure ReconcileDeps where
  issuerSpec : Except String IssuerSpecModel
  pkiConfigLoad : Except String PKIConfig
  authTokenLoad : Except String String
  healthResult : Except String Unit
  signResult : Except String (List Char × List Char)
deriving Inhabited

/-- The externally visible effects of one `Reconcile` invocation: whether a
signer's `CheckHealth` or `Sign` ran, the `setStatus` writes performed
(reason, status), and whether certificate bytes were written to the
request's status. -/
structure ReconcileEffects where
  invokedCheckHealth : Bool
  invokedSign : Bool
  statusWrites : List (String × String)
  wroteCertificate : Bool
deriving DecidableEq

/-- The no-effects outcome of the controller's early returns. -/
def noEffects : ReconcileEffects := ⟨false, false, [], false⟩

/-- `CertificateRequestReconciler.Reconcile` on a fetched request: the
issuer group/kind filter, the already-has-certificate and terminal-state
skips, the denied skip, the approval gate, then issuer resolution, signer
selection (`mockca` default), health check, signing, and the final status
write — recorded as effects. -/
def reconcileCR (cr : CertificateRequest) (deps : ReconcileDeps) : ReconcileEffects :=
  if cr.issuerGroup ≠ externalIssuerAPIGroup then noEffects
  else if cr.issuerKind ≠ issuerKindName ∧ cr.issuerKind ≠ clusterIssuerKindName then noEffects
  else if 0 < cr.certificate.length then noEffects
  else if isInTerminalState cr then noEffects
  else if isCertificateRequestDenied cr then noEffects
  else if ¬ isCertificateRequestApproved cr then noEffects
  else
    match deps.issuerSpec with
    | Except.error _ => ⟨false, false, [("IssuerNotFound", "False")], false⟩
    | Except.ok spec =>
      let signerType := if spec.signerType = "" then "mockca" else spec.signerType
      let setup : Except (String × String) Unit :=
        if signerType = "pki" ∧ spec.hasConfigMapRef then
          match deps.pkiConfigLoad with
          | Except.error _ => Except.error ("ConfigError", "False")
          | Except.ok _ =>
            if spec.authSecretName ≠ "" then
              match deps.authTokenLoad with
              | Except.error _ => Except.error ("AuthError", "False")
              | Except.ok _ => Except.ok ()
            else Except.ok ()
        else Except.ok ()
      match setup with
      | Except.error w => ⟨false, false, [w], false⟩
      | Except.ok _ =>
        match deps.healthResult with
        | Except.error _ => ⟨true, false, [("SignerError", "False")], false⟩
        | Except.ok _ =>
          match deps.signResult with
          | Except.error _ => ⟨true, true, [("SigningFailed", "False")], false⟩
          | Except.ok _ => ⟨true, true, [("Issued", "True")], true⟩

/-! ## Specification-side definitions (for refinement comparisons)

These definitions follow the specification's words, not the source, and are
compared against the source-side builders by the theorems below. -/

/-- Render one DN component as `KEY=value`. -/
def renderKV (kv : String × String) : String := kv.1 ++ "=" ++ kv.2

/-- Modelled from the spec: the comma ordering's component list — `CN`,
`OU*`, `O*`, `L*`, `ST*`, `C*` as key/value pairs, an empty Common Name
skipped, with the first DNS name as fallback `CN` when the subject yields
no components. -/
def specCommaComponents (csr : X509CertificateRequest) : List (String × String) :=
  let parts :=
    (if csr.subject.commonName ≠ "" then [("CN", csr.subject.commonName)] else [])
      ++ csr.subject.organizationalUnit.map (fun v => ("OU", v))
      ++ csr.subject.organization.map (fun v => ("O", v))
      ++ csr.subject.locality.map (fun v => ("L", v))
      ++ csr.subject.province.map (fun v => ("ST", v))
      ++ csr.subject.country.map (fun v => ("C", v))
  if parts = [] ∧ csr.dnsNames ≠ [] then [("CN", csr.dnsNames.headD "")] else parts

/-- Modelled from the spec: the slash ordering's component list — `C*`,
`ST*`, `L*`, `O*`, `OU*`, `CN` (most general first), same skipping and
fallback as the comma ordering. -/
def specSlashComponents (csr : X509CertificateRequest) : List (String × String) :=
  let parts :=
    csr.subject.country.map (fun v => ("C", v))
      ++ csr.subject.province.map (fun v => ("ST", v))
      ++ csr.subject.locality.map (fun v => ("L", v))
      ++ csr.subject.organization.map (fun v => ("O", v))
      ++ csr.subject.organizationalUnit.map (fun v => ("OU", v))
      ++ (if csr.subject.commonName ≠ "" then [("CN", csr.subject.commonName)] else [])
  if parts = [] ∧ csr.dnsNames ≠ [] then [("CN", csr.dnsNames.headD "")] else parts

/-! ## Request-shape predicates for the legacy front-end -/

/-- A legacy request that selects create-new (`new=1`), does not request
renewal, is not a retrieval (`getCERT`/`getKEY`/`getCSR` absent), and whose
subject DN parses to the non-empty Common Name `cn`. -/
def newRequestFor (body cn : String) : Prop :=
  mapGet (parsePKIParams body) "new" = "1"
  ∧ mapGet (parsePKIParams body) "renew" ≠ "1"
  ∧ mapHas (parsePKIParams body) "getCERT" = false
  ∧ mapHas (parsePKIParams body) "getKEY" = false
  ∧ mapHas (parsePKIParams body) "getCSR" = false
  ∧ mapGet (parsePKIParams body) "subject" ≠ ""
  ∧ (parseDN (mapGet (parsePKIParams body) "subject")).commonName = cn
  ∧ cn ≠ ""

/-- A legacy request that forces renewal (`renew=1`), is not a retrieval,
and whose subject DN parses to the non-empty Common Name `cn`. -/
def renewRequestFor (body cn : String) : Prop :=
  mapGet (parsePKIParams body) "renew" = "1"
  ∧ mapHas (parsePKIParams body) "getCERT" = false
  ∧ mapHas (parsePKIParams body) "getKEY" = false
  ∧ mapHas (parsePKIParams body) "getCSR" = false
  ∧ mapGet (parsePKIParams body) "subject" ≠ ""
  ∧ (parseDN (mapGet (parsePKIParams body) "subject")).commonName = cn
  ∧ cn ≠ ""

instance (body cn : String) : Decidable (newRequestFor body cn) := by
  unfold newRequestFor; infer_instance

instance (body cn : String) : Decidable (renewRequestFor body cn) := by
  unfold renewRequestFor; infer_instance

/-! ## Concrete sample data (used by witnesses and counterexamples) -/

/-- A legacy-PKI parameter configuration (semicolon format, slash DN,
`new=1`, subject parameter, `DNS` prefix starting at 2). -/
def legacyParameters : PKIParameters :=
  { paramFormat := "semicolon", newCertParam := "new", newCertValue := "1",
    renewCertParam := "renew", renewCertValue := "1", subjectParam := "subject",
    subjectDNFormat := "slash", dnsPrefix := "DNS", dnsStartIndex := 2, dnsMaxCount := 0,
    getCertParam := "", getKeyParam := "", getCSRParam := "" }

/-- The sample legacy PKI configuration with a raw-PEM response. -/
def legacyConfig : PKIConfig :=
  { baseURL := "https://pki.example.com/cgi/pki.cgi", method := "POST",
    parameters := legacyParameters,
    response := { format := "pem", certificateField := "", chainField := "" } }

/-- The CSR of §8's serialization scenario: subject `C=US, O=Example,
CN=app.example.com`, one DNS SAN `alt.example.com`, valid signature. -/
def sampleCSR : X509CertificateRequest :=
  { subject := { commonName := "app.example.com", organization := ["Example"],
                 organizationalUnit := [], locality := [], province := [], country := ["US"] },
    dnsNames := ["alt.example.com"], ipAddresses := [], uris := [], emailAddresses := [],
    signatureValid := true }

/-- The same CSR but with an embedded signature that does not verify. -/
def badSigCSR : X509CertificateRequest :=
  { sampleCSR with signatureValid := false }

/-- A subject whose only content is an empty-string Organization entry. -/
def emptyOrgCSR : X509CertificateRequest :=
  { subject := { commonName := "", organization := [""],
                 organizationalUnit := [], locality := [], province := [], country := [] },
    dnsNames := ["fallback.example.com"], ipAddresses := [], uris := [], emailAddresses := [],
    signatureValid := true }

def sampleBlockA : List Char := beginMarker ++ "AAA".toList ++ endMarker

def sampleBlockB : List Char := beginMarker ++ "BBB".toList ++ endMarker

def sampleBlockC : List Char := beginMarker ++ "CCC".toList ++ endMarker

/-- A response byte stream of exactly three certificate blocks. -/
def sampleStream3 : List Char := sampleBlockA ++ sampleBlockB ++ sampleBlockC

/-- A JSON response configuration declaring the certificate field
`cert_data`. -/
def jsonResponseCfg : PKIResponse :=
  { format := "json", certificateField := "cert_data", chainField := "" }

/-- A JSON-shaped body that carries a PEM certificate inside the declared
`cert_data` field (written without braces; `parseResponse` never parses
JSON structure, only scans for the PEM marker). -/
def jsonEnvelope : List Char :=
  ("\"cert_data\": \"" ++ "-----BEGIN CERTIFICATE-----AAA-----END CERTIFICATE-----"
    ++ "\"").toList

/-- A JSON-shaped body in which the declared `cert_data` field is absent. -/
def jsonMissingField : List Char := "\"other_field\": \"value\"".toList

/-- A concrete CA template for witness states. -/
def witnessCATemplate : CertTemplate :=
  { serialNumber := 11
    subject := { commonName := "External Issuer Mock CA"
                 organization := ["cert-manager-external-issuer"]
                 organizationalUnit := [], locality := [], province := [], country := [] }
    notBefore := 0, notAfter := 315360000,
    keyUsageDigitalSignature := true, keyUsageKeyEncipherment := false,
    keyUsageCertSign := true, keyUsageCRLSign := true,
    extKeyUsageServerAuth := false, extKeyUsageClientAuth := false,
    basicConstraintsValid := true, isCA := true, maxPathLen := 1,
    dnsNames := [], ipAddresses := [], uris := [], emailAddresses := [] }

/-- A generated `MockCASigner` state for witnesses. -/
def witnessSigner : MockCASigner :=
  { generated := true, caCert := some witnessCATemplate,
    caPEM := some (PEMData.cert witnessCATemplate),
    caKeyPEM := some (PEMData.rsaKey 5) }

/-- A fresh Mock CA server state (empty store) for witnesses. -/
def witnessServer : MockCAServer :=
  { caPEM := PEMData.cert witnessCATemplate, certStore := [],
    signCount := 0, certValidityDays := 365 }

/-- A `CertificateRequest` for this controller's group/kind whose `Denied`
condition is `True`. -/
def witnessDeniedCR : CertificateRequest :=
  { issuerGroup := "external-issuer.io", issuerKind := "ExternalIssuer",
    issuerName := "my-issuer", certificate := [], ca := [],
    conditions := [⟨"Denied", "True", "", ""⟩] }

/-- A reconcile environment in which every oracle succeeds. -/
def witnessDeps : ReconcileDeps :=
  { issuerSpec := Except.ok
      { signerType := "mockca", hasConfigMapRef := false, authSecretName := "", url := "" }
    pkiConfigLoad := Except.error "unused", authTokenLoad := Except.error "unused"
    healthResult := Except.ok (), signResult := Except.ok ([], []) }

/-! # Helper lemmas -/

theorem extractLoop_of_none (remaining : List Char) (isFirst : Bool) (acc : List (List Char))
    (hb : indexOfSub beginMarker remaining = none) :
    extractLoop remaining isFirst acc = acc := by
  unfold extractLoop
  split
  · rfl
  · rename_i start h1
    rw [hb] at h1
    exact Option.noConfusion h1

theorem extractLoop_step (remaining : List Char) (isFirst : Bool) (acc : List (List Char))
    (start e : Nat)
    (hb : indexOfSub beginMarker remaining = some start)
    (he : indexOfSub endMarker (remaining.drop start) = some e) :
    extractLoop remaining isFirst acc =
      extractLoop (remaining.drop (start + e + endMarker.length)) false
        (if isFirst then acc
         else acc ++ [trimSpaceChars ((remaining.drop start).take (e + endMarker.length))]) := by
  conv_lhs => unfold extractLoop
  split
  · rename_i h1
    rw [hb] at h1
    exact Option.noConfusion h1
  · rename_i start' h1
    rw [hb] at h1
    cases h1
    split
    · rename_i h2
      rw [he] at h2
      exact Option.noConfusion h2
    · rename_i e' h2
      rw [he] at h2
      cases h2
      rfl

theorem dnsLoop_length (pfx : String) (startIdx maxCount : Int) (hC : 0 ≤ maxCount) :
    ∀ (dns : List String) (i : Nat),
      (dnsLoop pfx startIdx maxCount i dns).length = min dns.length (maxCount.toNat - i) := by
  intro dns
  induction dns with
  | nil => intro i; simp [dnsLoop]
  | cons d rest ih =>
    intro i
    rw [dnsLoop]
    by_cases hstop : maxCount ≤ (i : Int)
    · rw [if_pos hstop]
      have : maxCount.toNat ≤ i := by omega
      simp
      omega
    · rw [if_neg hstop]
      have hlt : i < maxCount.toNat := by omega
      simp [ih (i + 1)]
      omega

theorem dnsLoop_getD (pfx : String) (startIdx maxCount : Int) :
    ∀ (dns : List String) (i j : Nat),
      j < (dnsLoop pfx startIdx maxCount i dns).length →
      (dnsLoop pfx startIdx maxCount i dns).getD j ("", "") =
        (pfx ++ toString (startIdx + ((i + j : Nat) : Int)), dns.getD j "") := by
  intro dns
  induction dns with
  | nil => intro i j h; simp [dnsLoop] at h
  | cons d rest ih =>
    intro i j h
    rw [dnsLoop] at h ⊢
    by_cases hstop : maxCount ≤ (i : Int)
    · rw [if_pos hstop] at h
      simp at h
    · rw [if_neg hstop] at h ⊢
      cases j with
      | zero => simp
      | succ j' =>
        simp only [List.getD_cons_succ]
        have := ih (i + 1) j' (by simpa using h)
        rw [this]
        have harith : i + 1 + j' = i + (j' + 1) := by omega
        rw [harith]

theorem commaParts_eq_spec (csr : X509CertificateRequest) :
    commaParts csr = (specCommaComponents csr).map renderKV := by
  rw [commaParts, specCommaComponents]
  simp only [apply_ite (List.map renderKV), List.map_append, List.map_map]
  refine if_congr (and_congr_left' ?_) rfl rfl
  simp [List.append_eq_nil, List.map_eq_nil_iff]

theorem slashParts_eq_spec (csr : X509CertificateRequest) :
    slashParts csr = (specSlashComponents csr).map (fun kv => "/" ++ renderKV kv) := by
  rw [slashParts, specSlashComponents]
  simp only [apply_ite (List.map (fun kv => "/" ++ renderKV kv)), List.map_append,
    List.map_map]
  refine if_congr (and_congr_left' ?_) rfl rfl
  simp [List.append_eq_nil, List.map_eq_nil_iff]

theorem perm_withFallback {α : Type} [DecidableEq α] (A B fb : List α) (c : Prop)
    [Decidable c] (hraw : A.Perm B) :
    (if A = [] ∧ c then fb else A).Perm (if B = [] ∧ c then fb else B) := by
  by_cases hA : A = []
  · have hB : B = [] := (List.Perm.nil_eq (hA ▸ hraw)).symm
    rw [hA, hB]
  · have hB : B ≠ [] := fun h => hA (h ▸ hraw).eq_nil
    rw [if_neg (fun hc => hA hc.1), if_neg (fun hc => hB hc.1)]
    exact hraw

theorem specComponents_perm (csr : X509CertificateRequest) :
    (specCommaComponents csr).Perm (specSlashComponents csr) := by
  simp only [specCommaComponents, specSlashComponents]
  refine perm_withFallback _ _ _ _ ?_
  rw [List.perm_iff_count]
  intro x
  simp only [List.count_append]
  omega

theorem storeGet_storeSet_self (store : List (String × StoredCert)) (cn : String)
    (sc : StoredCert) : storeGet (storeSet store cn sc) cn = some sc := by
  induction store with
  | nil => simp [storeSet, storeGet]
  | cons kv rest ih =>
    by_cases h1 : kv.1 = cn
    · simp [storeSet, storeGet, h1]
    · have e : storeSet (kv :: rest) cn sc = kv :: storeSet rest cn sc := by
        by_cases h2 : rest.any (fun kv => kv.1 = cn) <;> simp [storeSet, h1, h2]
      rw [e]
      have hstep : storeGet (kv :: storeSet rest cn sc) cn
          = storeGet (storeSet rest cn sc) cn := by
        simp [storeGet, List.find?_cons, h1]
      rw [hstep]
      exact ih

theorem handlePKISign_new_fresh (ca : MockCAServer) (body cn : String)
    (serial key : Nat) (now : Int)
    (h : newRequestFor body cn) (hstore : storeGet ca.certStore cn = none) :
    handlePKISign ca body serial key now =
      pkiGenerate ca (parseDN (mapGet (parsePKIParams body) "subject"))
        (mapGet (parsePKIParams body) "subject")
        (cn :: collectDNS (parsePKIParams body)) serial key now := by
  obtain ⟨hnew, hrenew, hgc, hgk, hgcsr, hsubj, hcn, hcnne⟩ := h
  simp only [handlePKISign, hcn, hnew, hgc, hgk, hgcsr]
  rw [if_neg hsubj, if_neg hcnne]
  simp only [Bool.false_eq_true, if_false]
  rw [if_pos ⟨trivial, hrenew⟩, hstore]

theorem handlePKISign_new_existing (ca : MockCAServer) (body cn : String)
    (serial key : Nat) (now : Int) (sc : StoredCert)
    (h : newRequestFor body cn) (hstore : storeGet ca.certStore cn = some sc) :
    handlePKISign ca body serial key now = (⟨200, [sc.certPEM, ca.caPEM], ""⟩, ca) := by
  obtain ⟨hnew, hrenew, hgc, hgk, hgcsr, hsubj, hcn, hcnne⟩ := h
  simp only [handlePKISign, hcn, hnew, hgc, hgk, hgcsr]
  rw [if_neg hsubj, if_neg hcnne]
  simp only [Bool.false_eq_true, if_false]
  rw [if_pos ⟨trivial, hrenew⟩, hstore]

theorem handlePKISign_renew (ca : MockCAServer) (body cn : String)
    (serial key : Nat) (now : Int)
    (h : renewRequestFor body cn) :
    handlePKISign ca body serial key now =
      pkiGenerate ca (parseDN (mapGet (parsePKIParams body) "subject"))
        (mapGet (parsePKIParams body) "subject")
        (cn :: collectDNS (parsePKIParams body)) serial key now := by
  obtain ⟨hrenew, hgc, hgk, hgcsr, hsubj, hcn, hcnne⟩ := h
  simp only [handlePKISign, hcn, hrenew]
  rw [if_neg hsubj, if_neg hcnne]
  simp only [hgc, hgk, hgcsr, Bool.false_eq_true, if_false]
  rw [if_neg (fun hc => hc.2 trivial)]

/-! # Claim theorems -/

/-- C1 (code bug witness): `PKISigner.Sign` performs no CSR signature
verification.  For the concrete CSR whose embedded signature does not
verify (`badSigCSR.signatureValid = false`), `Sign` builds the request,
transmits it (the transport oracle is consulted: its failure propagates,
and its 200/PEM answer becomes the returned certificate), and returns
certificate bytes with no `InvalidSignature`-style error — contradicting
the claim that such a CSR never reaches the request-building/transmission
stage. -/
theorem pkiSign_invalid_signature_reaches_transport :
    badSigCSR.signatureValid = false
    ∧ pkiSign legacyConfig (some ("CERTIFICATE REQUEST", some badSigCSR))
        (fun _ => some (200, sampleBlockA)) 365
      = Except.ok (sampleBlockA, none)
    ∧ pkiSign legacyConfig (some ("CERTIFICATE REQUEST", some badSigCSR))
        (fun _ => none) 365
      = Except.error "request failed" := by
  refine ⟨rfl, ?_, rfl⟩
  have hloop : extractLoop sampleBlockA true [] = [] := by
    rw [extractLoop_step sampleBlockA true [] 0 30 (by decide) (by decide)]
    rw [extractLoop_of_none _ _ _ (by decide)]
    rfl
  have hchain : extractCAChain sampleBlockA = none := by
    rw [extractCAChain]
    simp only [hloop]
    rfl
  have hpr : parseResponse legacyConfig.response sampleBlockA = Except.ok sampleBlockA := by
    rfl
  simp [pkiSign, hpr, hchain]

/-- C2 (counterexample): on a response of exactly three certificate blocks,
the signer does not return the first block as the leaf — it returns the
whole byte stream in the leaf position — and the chain is not the plain
concatenation of blocks 2 and 3 but their space-trimmed forms joined by a
newline. -/
theorem extract_first_block_counterexample :
    pkiSign legacyConfig (some ("CERTIFICATE REQUEST", some sampleCSR))
        (fun _ => some (200, sampleStream3)) 365
      = Except.ok (sampleStream3, some (sampleBlockB ++ '\n' :: sampleBlockC))
    ∧ sampleStream3 ≠ sampleBlockA
    ∧ sampleBlockB ++ '\n' :: sampleBlockC ≠ sampleBlockB ++ sampleBlockC := by
  refine ⟨?_, by decide, by decide⟩
  have hloop : extractLoop sampleStream3 true [] = [sampleBlockB, sampleBlockC] := by
    rw [extractLoop_step sampleStream3 true [] 0 30 (by decide) (by decide)]
    rw [show (if true then ([] : List (List Char))
          else [] ++ [trimSpaceChars ((sampleStream3.drop 0).take (30 + endMarker.length))])
        = [] from rfl]
    rw [extractLoop_step _ false [] 0 30 (by decide) (by decide)]
    rw [extractLoop_step _ false _ 0 30 (by decide) (by decide)]
    rw [extractLoop_of_none _ _ _ (by decide)]
    decide
  have hchain : extractCAChain sampleStream3
      = some (sampleBlockB ++ '\n' :: sampleBlockC) := by
    rw [extractCAChain]
    simp only [hloop]
    decide
  have hpr : parseResponse legacyConfig.response sampleStream3
      = Except.ok sampleStream3 := by
    rfl
  simp [pkiSign, hpr, hchain]

/-- C2 (amended): for every response byte stream holding exactly three
sequential `BEGIN`/`END CERTIFICATE` blocks (first block found at `i1` with
its `END` at `e1`, the second and third in the successive remainders `r1`,
`r2`, and no further block in `r3`), a successful `PKISigner.Sign` returns
the whole stream in the leaf position, and the CA chain is the second and
third blocks, each space-trimmed, joined by a newline (in encountered
order). -/
theorem pkiSign_three_blocks (cfg : PKIConfig) (csr : X509CertificateRequest)
    (validityDays : Int) (stream r1 r2 r3 : List Char)
    (i1 e1 i2 e2 i3 e3 : Nat)
    (h1 : indexOfSub beginMarker stream = some i1)
    (h2 : indexOfSub endMarker (stream.drop i1) = some e1)
    (hr1 : r1 = stream.drop (i1 + e1 + endMarker.length))
    (h3 : indexOfSub beginMarker r1 = some i2)
    (h4 : indexOfSub endMarker (r1.drop i2) = some e2)
    (hr2 : r2 = r1.drop (i2 + e2 + endMarker.length))
    (h5 : indexOfSub beginMarker r2 = some i3)
    (h6 : indexOfSub endMarker (r2.drop i3) = some e3)
    (hr3 : r3 = r2.drop (i3 + e3 + endMarker.length))
    (h7 : indexOfSub beginMarker r3 = none) :
    pkiSign cfg (some ("CERTIFICATE REQUEST", some csr))
        (fun _ => some (200, stream)) validityDays
      = Except.ok (stream,
          some (List.intercalate ['\n']
            [trimSpaceChars ((r1.drop i2).take (e2 + endMarker.length)),
             trimSpaceChars ((r2.drop i3).take (e3 + endMarker.length))])) := by
  have hloop : extractLoop stream true [] =
      [trimSpaceChars ((r1.drop i2).take (e2 + endMarker.length)),
       trimSpaceChars ((r2.drop i3).take (e3 + endMarker.length))] := by
    rw [extractLoop_step stream true [] i1 e1 h1 h2]
    rw [show (if true then ([] : List (List Char))
          else [] ++ [trimSpaceChars ((stream.drop i1).take (e1 + endMarker.length))]) = []
        from rfl]
    rw [← hr1, extractLoop_step r1 false [] i2 e2 h3 h4]
    rw [show (if false then ([] : List (List Char))
          else [] ++ [trimSpaceChars ((r1.drop i2).take (e2 + endMarker.length))])
        = [trimSpaceChars ((r1.drop i2).take (e2 + endMarker.length))] from by simp]
    rw [← hr2, extractLoop_step r2 false _ i3 e3 h5 h6]
    rw [← hr3, extractLoop_of_none _ _ _ h7]
    simp
  have hchain : extractCAChain stream =
      some (List.intercalate ['\n']
        [trimSpaceChars ((r1.drop i2).take (e2 + endMarker.length)),
         trimSpaceChars ((r2.drop i3).take (e3 + endMarker.length))]) := by
    simp [extractCAChain, hloop]
  simp [pkiSign, parseResponse, containsSub, h1, hchain]

/-- C2 witness: the three-block theorem applied to the concrete stream of
three sample blocks. -/
theorem pkiSign_three_blocks_witness :
    pkiSign legacyConfig (some ("CERTIFICATE REQUEST", some sampleCSR))
        (fun _ => some (200, sampleStream3)) 365
      = Except.ok (sampleStream3,
          some (List.intercalate ['\n']
            [trimSpaceChars (((sampleBlockB ++ sampleBlockC).drop 0).take
                (30 + endMarker.length)),
             trimSpaceChars ((sampleBlockC.drop 0).take (30 + endMarker.length))])) :=
  pkiSign_three_blocks legacyConfig sampleCSR 365 sampleStream3
    (sampleBlockB ++ sampleBlockC) sampleBlockC [] 0 30 0 30 0 30
    (by decide) (by decide) (by decide) (by decide) (by decide)
    (by decide) (by decide) (by decide) (by decide) (by decide)

/-- C3 (counterexample): with response format `json` and declared
certificate field `cert_data`, `parseResponse` returns the untouched JSON
envelope (no field is unwrapped), and for a JSON body lacking the declared
field the error is the fixed string `no certificate in response`, which
does not name `cert_data`. -/
theorem parseResponse_json_field_counterexample :
    parseResponse jsonResponseCfg jsonEnvelope = Except.ok jsonEnvelope
    ∧ jsonEnvelope
        ≠ "-----BEGIN CERTIFICATE-----AAA-----END CERTIFICATE-----".toList
    ∧ parseResponse jsonResponseCfg jsonMissingField
        = Except.error "no certificate in response" := by
  refine ⟨rfl, by decide, rfl⟩

/-- C3 (amended): `parseResponse` is independent of the configured response
format and field names: on any body, every configuration yields the same
result; a success returns the body unchanged (no JSON unwrapping), and
every failure is the fixed error `no certificate in response`. -/
theorem parseResponse_format_agnostic (r1 r2 : PKIResponse) (body : List Char) :
    parseResponse r1 body = parseResponse r2 body
    ∧ (∀ out, parseResponse r1 body = Except.ok out → out = body)
    ∧ (∀ e, parseResponse r1 body = Except.error e →
        e = "no certificate in response") := by
  refine ⟨rfl, ?_, ?_⟩
  · intro out h
    rw [parseResponse] at h
    by_cases hc : containsSub beginMarker body = true
    · rw [if_pos hc] at h
      exact (Except.ok.inj h).symm
    · rw [if_neg hc] at h
      exact Except.noConfusion h
  · intro e h
    rw [parseResponse] at h
    by_cases hc : containsSub beginMarker body = true
    · rw [if_pos hc] at h
      exact Except.noConfusion h
    · rw [if_neg hc] at h
      exact (Except.error.inj h).symm

/-- C4: with a non-empty DNS prefix and a non-negative configured cap, the
SAN parameters emitted by `buildRequestParams` (the `sanEmissions` sequence
of its DNS loop) number exactly `min N C` for `N` DNS names and effective
cap `C` (20 when configured 0), and the `j`-th emission is the key
`{prefix}{S + j}` (effective start `S`, 2 when configured 0) mapped to the
`j`-th DNS name of the CSR. -/
theorem buildRequestParams_san_emissions (cfg : PKIParameters)
    (csr : X509CertificateRequest) (S C : Int)
    (hpfx : cfg.dnsPrefix ≠ "")
    (hcap : 0 ≤ cfg.dnsMaxCount)
    (hS : S = if cfg.dnsStartIndex = 0 then 2 else cfg.dnsStartIndex)
    (hC : C = if cfg.dnsMaxCount = 0 then 20 else cfg.dnsMaxCount) :
    (sanEmissions cfg csr).length = min csr.dnsNames.length C.toNat
    ∧ ∀ j : Nat, j < min csr.dnsNames.length C.toNat →
        (sanEmissions cfg csr).getD j ("", "") =
          (cfg.dnsPrefix ++ toString (S + (j : Int)), csr.dnsNames.getD j "") := by
  have hC0 : 0 ≤ C := by
    rw [hC]
    by_cases h : cfg.dnsMaxCount = 0 <;> simp [h] <;> omega
  by_cases hdns : csr.dnsNames = []
  · constructor
    · simp [sanEmissions, hdns]
    · intro j hj
      simp [hdns] at hj
  · have hsan : sanEmissions cfg csr = dnsLoop cfg.dnsPrefix S C 0 csr.dnsNames := by
      rw [sanEmissions, if_pos ⟨hdns, hpfx⟩, hS, hC]
    have hlen : (sanEmissions cfg csr).length = min csr.dnsNames.length C.toNat := by
      rw [hsan, dnsLoop_length cfg.dnsPrefix S C hC0]
      omega
    refine ⟨hlen, ?_⟩
    intro j hj
    rw [hsan]
    have := dnsLoop_getD cfg.dnsPrefix S C csr.dnsNames 0 j (by rw [← hsan, hlen]; exact hj)
    rw [this]
    norm_num

/-- C4 witness: the SAN emission theorem at the sample configuration
(prefix `DNS`, start 2, cap defaulted to 20) and the one-SAN sample CSR. -/
theorem buildRequestParams_san_emissions_witness :
    (sanEmissions legacyParameters sampleCSR).length = 1
    ∧ (sanEmissions legacyParameters sampleCSR).getD 0 ("", "")
        = ("DNS2", "alt.example.com") := by
  have h := buildRequestParams_san_emissions legacyParameters sampleCSR 2 20
    (by decide) (by decide) (by decide) (by decide)
  refine ⟨h.1.trans (by decide), ?_⟩
  exact (h.2 0 (by decide)).trans (by decide)

/-- C5 (counterexample): the semicolon serialization depends on the map
iteration order, which Go does not fix: the iteration order
`subject, new, DNS2` is a permutation of the built parameter keys, and the
resulting body differs from the claimed exact string. -/
theorem semicolon_body_order_counterexample :
    (["subject", "new", "DNS2"] : List String).Perm
        (valuesKeys (buildRequestParams legacyParameters sampleCSR))
    ∧ semicolonBody (buildRequestParams legacyParameters sampleCSR)
        ["subject", "new", "DNS2"]
        ≠ "new=1;subject=/C=US/O=Example/CN=app.example.com;DNS2=alt.example.com" := by
  constructor
  · decide
  · decide

/-- C5 (amended): for the scenario configuration and CSR, every Go map
iteration order (any permutation of the parameter keys) serializes to the
same multiset of `key=value` parts
`{new=1, subject=/C=US/O=Example/CN=app.example.com, DNS2=alt.example.com}`
joined by `;`, and the insertion-order serialization equals the claimed
exact string. -/
theorem semicolon_body_parts_perm (order : List String)
    (horder : order.Perm (valuesKeys (buildRequestParams legacyParameters sampleCSR))) :
    (semicolonParts (buildRequestParams legacyParameters sampleCSR) order).Perm
        ["new=1", "subject=/C=US/O=Example/CN=app.example.com", "DNS2=alt.example.com"]
    ∧ semicolonBody (buildRequestParams legacyParameters sampleCSR) ["new", "subject", "DNS2"]
        = "new=1;subject=/C=US/O=Example/CN=app.example.com;DNS2=alt.example.com" := by
  constructor
  · exact (List.Perm.filterMap _ horder).trans (by decide)
  · decide

/-- C5 witness: the permutation theorem at the iteration order
`DNS2, subject, new`. -/
theorem semicolon_body_parts_perm_witness :
    (semicolonParts (buildRequestParams legacyParameters sampleCSR)
        ["DNS2", "subject", "new"]).Perm
      ["new=1", "subject=/C=US/O=Example/CN=app.example.com", "DNS2=alt.example.com"]
    ∧ semicolonBody (buildRequestParams legacyParameters sampleCSR) ["new", "subject", "DNS2"]
        = "new=1;subject=/C=US/O=Example/CN=app.example.com;DNS2=alt.example.com" :=
  semicolon_body_parts_perm ["DNS2", "subject", "new"] (by decide)

/-- C6 (counterexample): an empty string inside a multi-valued attribute is
not skipped: for a subject whose only content is `Organization = [""]` (and
a DNS name available for the fallback), the comma builder emits the
empty-valued component `O=` and the slash builder `/O=` — neither skips it
nor falls back to `CN=fallback.example.com`. -/
theorem dn_builders_empty_component_counterexample :
    buildSubjectDNComma emptyOrgCSR = "O="
    ∧ buildSubjectDNSlash emptyOrgCSR = "/O="
    ∧ "O=" ≠ "CN=fallback.example.com" := by
  refine ⟨by decide, by decide, by decide⟩

/-- C6 (amended): the comma builder renders exactly the spec-side component
list `CN, OU*, O*, L*, ST*, C*` (empty Common Name skipped, first-DNS-name
fallback when the subject yields no components) joined by commas; the slash
builder renders the spec-side list `C*, ST*, L*, O*, OU*, CN` (same
skipping and fallback) each component prefixed by a slash with no trailing
separator; and the two component lists are permutations of each other —
the same multiset of `key=value` components, differing only in order and
delimiter.  (Empty strings inside multi-valued attributes are emitted
verbatim by both, per the counterexample.) -/
theorem dn_builders_components_agree (csr : X509CertificateRequest) :
    buildSubjectDNComma csr
      = String.intercalate "," ((specCommaComponents csr).map renderKV)
    ∧ buildSubjectDNSlash csr
      = String.join ((specSlashComponents csr).map (fun kv => "/" ++ renderKV kv))
    ∧ (specCommaComponents csr).Perm (specSlashComponents csr) := by
  refine ⟨?_, ?_, specComponents_perm csr⟩
  · rw [buildSubjectDNComma, commaParts_eq_spec]
  · rw [buildSubjectDNSlash, slashParts_eq_spec]

/-- C7: for a ready Mock CA and a parsed CSR whose signature verifies,
`MockCASigner.Sign` issues a leaf whose subject and DNS/IP/URI/email SANs
are copied from the CSR, whose serial number is the random draw below
`serialNumberLimit = 2^128`, whose validity window is
`[now − 1 min, now + validityDays days]`, key usage digital signature + key
encipherment, extended key usage server + client auth, `IsCA = false`, and
returns the leaf PEM with the stored CA PEM as the chain; for
`validityDays = 90`, `NotAfter − NotBefore` is within one minute of
`90 × 24h`. -/
theorem mockCASign_issues_leaf (s : MockCASigner) (keyGen : Option Nat) (caSerial : Nat)
    (blockType : String) (csr : X509CertificateRequest)
    (leafSerial : Nat) (now validityDays : Int) (caPEM0 : PEMData)
    (hgen : s.generated = true) (hca : s.caPEM = some caPEM0)
    (hsig : csr.signatureValid = true) (hserial : leafSerial < serialNumberLimit) :
    ∃ leaf : CertTemplate,
      mockCASign s keyGen caSerial (some (blockType, some csr)) leafSerial now validityDays
        = Except.ok (PEMData.cert leaf, some caPEM0)
      ∧ leaf.subject = csr.subject
      ∧ leaf.dnsNames = csr.dnsNames ∧ leaf.ipAddresses = csr.ipAddresses
      ∧ leaf.uris = csr.uris ∧ leaf.emailAddresses = csr.emailAddresses
      ∧ leaf.serialNumber = leafSerial ∧ leafSerial < 2 ^ 128 ∧ serialNumberLimit = 2 ^ 128
      ∧ leaf.notBefore = now - 60 ∧ leaf.notAfter = now + validityDays * 86400
      ∧ leaf.keyUsageDigitalSignature = true ∧ leaf.keyUsageKeyEncipherment = true
      ∧ leaf.keyUsageCertSign = false ∧ leaf.keyUsageCRLSign = false
      ∧ leaf.extKeyUsageServerAuth = true ∧ leaf.extKeyUsageClientAuth = true
      ∧ leaf.isCA = false
      ∧ (validityDays = 90 →
          90 * 86400 ≤ leaf.notAfter - leaf.notBefore
          ∧ leaf.notAfter - leaf.notBefore - 90 * 86400 ≤ 60) := by
  refine ⟨{ serialNumber := leafSerial, subject := csr.subject,
            notBefore := now - 60, notAfter := addDate now 0 0 validityDays,
            keyUsageDigitalSignature := true, keyUsageKeyEncipherment := true,
            keyUsageCertSign := false, keyUsageCRLSign := false,
            extKeyUsageServerAuth := true, extKeyUsageClientAuth := true,
            basicConstraintsValid := true, isCA := false, maxPathLen := 0,
            dnsNames := csr.dnsNames, ipAddresses := csr.ipAddresses,
            uris := csr.uris, emailAddresses := csr.emailAddresses }, ?_, ?_⟩
  · simp [mockCASign, ensureCA, hgen, hca, hsig]
  · refine ⟨rfl, rfl, rfl, rfl, rfl, rfl, ?_, ?_, rfl, ?_, rfl, rfl, rfl, rfl, rfl,
      rfl, rfl, ?_⟩
    · simpa [serialNumberLimit] using hserial
    · simp [serialNumberLimit]
    · simp [addDate]
    · intro h90
      subst h90
      constructor <;> simp [addDate]

/-- C7 witness: the issuance theorem at a concrete ready signer, the sample
CSR, serial 7, `now = 1000` and `validityDays = 90`. -/
theorem mockCASign_issues_leaf_witness :
    ∃ leaf : CertTemplate,
      mockCASign witnessSigner none 2 (some ("CERTIFICATE REQUEST", some sampleCSR))
          7 1000 90
        = Except.ok (PEMData.cert leaf, some (PEMData.cert witnessCATemplate))
      ∧ leaf.serialNumber = 7 ∧ leaf.notBefore = 940 := by
  obtain ⟨leaf, heq, hsub, hdns, hip, huri, hem, hser, hlt, hlim, hnb, hrest⟩ :=
    mockCASign_issues_leaf witnessSigner none 2 "CERTIFICATE REQUEST" sampleCSR
      7 1000 90 (PEMData.cert witnessCATemplate) rfl rfl rfl (by decide)
  exact ⟨leaf, heq, hser, hnb.trans (by decide)⟩

/-- C8: on the legacy `/cgi/pki.cgi` front-end, a first `new=1` request for
a Common Name not yet in the store issues a certificate carrying the drawn
serial `s1` and returns it with the CA appended; a second `new=1` request
for the same Common Name without `renew` returns the byte-identical
response and leaves the server state unchanged (no new certificate is
generated); a `renew=1` request for the same Common Name issues a fresh
certificate with the newly drawn serial `s3`, overwrites the stored entry,
and (whenever `s3 ≠ s1`, which the 128-bit random draw makes overwhelmingly
likely) its bytes differ from the first issuance. -/
theorem handlePKISign_new_idempotent_renew_fresh
    (ca0 : MockCAServer) (b1 b2 b3 cn : String)
    (s1 k1 s2 k2 s3 k3 : Nat) (n1 n2 n3 : Int)
    (h1 : newRequestFor b1 cn) (h2 : newRequestFor b2 cn) (h3 : renewRequestFor b3 cn)
    (hstore : storeGet ca0.certStore cn = none) :
    ∃ leaf1 leaf3 : CertTemplate,
      (handlePKISign ca0 b1 s1 k1 n1).1.status = 200
      ∧ (handlePKISign ca0 b1 s1 k1 n1).1.body = [PEMData.cert leaf1, ca0.caPEM]
      ∧ leaf1.serialNumber = s1
      ∧ (handlePKISign (handlePKISign ca0 b1 s1 k1 n1).2 b2 s2 k2 n2).1
          = (handlePKISign ca0 b1 s1 k1 n1).1
      ∧ (handlePKISign (handlePKISign ca0 b1 s1 k1 n1).2 b2 s2 k2 n2).2
          = (handlePKISign ca0 b1 s1 k1 n1).2
      ∧ (handlePKISign (handlePKISign ca0 b1 s1 k1 n1).2 b3 s3 k3 n3).1.body
          = [PEMData.cert leaf3, ca0.caPEM]
      ∧ leaf3.serialNumber = s3
      ∧ storeGet ((handlePKISign (handlePKISign ca0 b1 s1 k1 n1).2 b3 s3 k3 n3).2).certStore cn
          = some { certPEM := PEMData.cert leaf3, keyPEM := some (PEMData.rsaKey k3),
                   csr := none, subject := mapGet (parsePKIParams b3) "subject" }
      ∧ (s3 ≠ s1 → PEMData.cert leaf3 ≠ PEMData.cert leaf1) := by
  have hcn1 : (parseDN (mapGet (parsePKIParams b1) "subject")).commonName = cn :=
    h1.2.2.2.2.2.2.1
  have hcn3 : (parseDN (mapGet (parsePKIParams b3) "subject")).commonName = cn :=
    h3.2.2.2.2.2.1
  have e1 := handlePKISign_new_fresh ca0 b1 cn s1 k1 n1 h1 hstore
  have hst1 : storeGet ((handlePKISign ca0 b1 s1 k1 n1).2).certStore cn
      = some { certPEM := PEMData.cert (pkiLeafTemplate ca0
                  (parseDN (mapGet (parsePKIParams b1) "subject"))
                  (cn :: collectDNS (parsePKIParams b1)) s1 n1),
               keyPEM := some (PEMData.rsaKey k1), csr := none,
               subject := mapGet (parsePKIParams b1) "subject" } := by
    rw [e1]
    rw [show (pkiGenerate ca0 (parseDN (mapGet (parsePKIParams b1) "subject"))
          (mapGet (parsePKIParams b1) "subject") (cn :: collectDNS (parsePKIParams b1))
          s1 k1 n1).2.certStore
        = storeSet ca0.certStore
            (parseDN (mapGet (parsePKIParams b1) "subject")).commonName
            { certPEM := PEMData.cert (pkiLeafTemplate ca0
                (parseDN (mapGet (parsePKIParams b1) "subject"))
                (cn :: collectDNS (parsePKIParams b1)) s1 n1),
              keyPEM := some (PEMData.rsaKey k1), csr := none,
              subject := mapGet (parsePKIParams b1) "subject" } from rfl]
    rw [hcn1]
    exact storeGet_storeSet_self _ _ _
  have e2 := handlePKISign_new_existing _ b2 cn s2 k2 n2 _ h2 hst1
  have e3 := handlePKISign_renew ((handlePKISign ca0 b1 s1 k1 n1).2) b3 cn s3 k3 n3 h3
  refine ⟨pkiLeafTemplate ca0 (parseDN (mapGet (parsePKIParams b1) "subject"))
      (cn :: collectDNS (parsePKIParams b1)) s1 n1,
    pkiLeafTemplate (handlePKISign ca0 b1 s1 k1 n1).2
      (parseDN (mapGet (parsePKIParams b3) "subject"))
      (cn :: collectDNS (parsePKIParams b3)) s3 n3, ?_, ?_, ?_, ?_, ?_, ?_, ?_, ?_, ?_⟩
  · rw [e1]; rfl
  · rw [e1]; rfl
  · rfl
  · rw [e2, e1]; rfl
  · rw [e2]
  · rw [e3, e1]; rfl
  · rfl
  · rw [e3]
    rw [show (pkiGenerate (handlePKISign ca0 b1 s1 k1 n1).2
          (parseDN (mapGet (parsePKIParams b3) "subject"))
          (mapGet (parsePKIParams b3) "subject") (cn :: collectDNS (parsePKIParams b3))
          s3 k3 n3).2.certStore
        = storeSet ((handlePKISign ca0 b1 s1 k1 n1).2).certStore
            (parseDN (mapGet (parsePKIParams b3) "subject")).commonName
            { certPEM := PEMData.cert (pkiLeafTemplate (handlePKISign ca0 b1 s1 k1 n1).2
                (parseDN (mapGet (parsePKIParams b3) "subject"))
                (cn :: collectDNS (parsePKIParams b3)) s3 n3),
              keyPEM := some (PEMData.rsaKey k3), csr := none,
              subject := mapGet (parsePKIParams b3) "subject" } from rfl]
    rw [hcn3]
    exact storeGet_storeSet_self _ _ _
  · intro hne heq
    have hinj : pkiLeafTemplate (handlePKISign ca0 b1 s1 k1 n1).2
        (parseDN (mapGet (parsePKIParams b3) "subject"))
        (cn :: collectDNS (parsePKIParams b3)) s3 n3
        = pkiLeafTemplate ca0 (parseDN (mapGet (parsePKIParams b1) "subject"))
            (cn :: collectDNS (parsePKIParams b1)) s1 n1 := by
      injection heq
    have := congrArg CertTemplate.serialNumber hinj
    exact hne this

/-- C8 witness: the legacy-handler theorem at a fresh server, concrete
request bodies for CN `test.example.com`, and distinct serial draws. -/
theorem handlePKISign_new_idempotent_renew_fresh_witness :
    ∃ leaf1 leaf3 : CertTemplate,
      (handlePKISign witnessServer "new=1;subject=/C=US/O=Example/CN=test.example.com"
          1 2 100).1.body
        = [PEMData.cert leaf1, witnessServer.caPEM]
      ∧ (handlePKISign
            (handlePKISign witnessServer "new=1;subject=/C=US/O=Example/CN=test.example.com"
              1 2 100).2
            "new=1;subject=/C=US/O=Example/CN=test.example.com" 3 4 200).1
          = (handlePKISign witnessServer "new=1;subject=/C=US/O=Example/CN=test.example.com"
              1 2 100).1
      ∧ leaf3.serialNumber = 5 := by
  obtain ⟨leaf1, leaf3, hst, hb1, hs1, hr2, hst2, hb3, hs3, hstore3, hne⟩ :=
    handlePKISign_new_idempotent_renew_fresh witnessServer
      "new=1;subject=/C=US/O=Example/CN=test.example.com"
      "new=1;subject=/C=US/O=Example/CN=test.example.com"
      "renew=1;subject=/C=US/O=Example/CN=test.example.com"
      "test.example.com" 1 2 3 4 5 6 100 200 300
      (by decide) (by decide) (by decide) (by decide)
  exact ⟨leaf1, leaf3, hb1, hr2, hs3⟩

/-- C9: a `CertificateRequest` addressed to this controller's issuer
group and kind that already has a certificate, or is in a terminal `Ready`
condition (`True`, or reason `Failed`/`Denied`), or is denied, or is not
yet approved, is reconciled with no effects: no `CheckHealth`, no `Sign`,
and no status write — so signing happens at most once per request, decided
purely from the request's persisted fields. -/
theorem reconcileCR_terminal_noop (cr : CertificateRequest) (deps : ReconcileDeps)
    (hg : cr.issuerGroup = externalIssuerAPIGroup)
    (hk : cr.issuerKind = issuerKindName ∨ cr.issuerKind = clusterIssuerKindName)
    (hskip : 0 < cr.certificate.length ∨ isInTerminalState cr = true
      ∨ isCertificateRequestDenied cr = true ∨ isCertificateRequestApproved cr = false) :
    reconcileCR cr deps = noEffects := by
  rw [reconcileCR, if_neg (fun hne => hne hg),
    if_neg (fun hc => hk.elim (fun h => hc.1 h) (fun h => hc.2 h))]
  by_cases h3 : 0 < cr.certificate.length
  · rw [if_pos h3]
  · rw [if_neg h3]
    by_cases h4 : isInTerminalState cr = true
    · rw [if_pos h4]
    · rw [if_neg h4]
      by_cases h5 : isCertificateRequestDenied cr = true
      · rw [if_pos h5]
      · rw [if_neg h5]
        have h6 : isCertificateRequestApproved cr = false := by
          rcases hskip with h | h | h | h
          · exact absurd h h3
          · exact absurd h h4
          · exact absurd h h5
          · exact h
        rw [if_pos (by simp [h6])]

/-- C9 witness: the no-op theorem at a denied request in a fully
functioning environment. -/
theorem reconcileCR_terminal_noop_witness :
    reconcileCR witnessDeniedCR witnessDeps = noEffects :=
  reconcileCR_terminal_noop witnessDeniedCR witnessDeps rfl (Or.inl rfl)
    (Or.inr (Or.inr (Or.inl (by decide))))

/-- C10: for every response byte stream holding exactly one
`BEGIN`/`END CERTIFICATE` block (first block found at `start`, its `END` at
`e`, and no further block after it), a successful `PKISigner.Sign` returns
the stream with a `nil` CA chain: `extractCAChain` yields `none` when no
block follows the first. -/
theorem pkiSign_single_block_nil_chain (cfg : PKIConfig) (csr : X509CertificateRequest)
    (validityDays : Int) (stream : List Char) (start e : Nat)
    (hb : indexOfSub beginMarker stream = some start)
    (he : indexOfSub endMarker (stream.drop start) = some e)
    (hrest : indexOfSub beginMarker (stream.drop (start + e + endMarker.length)) = none) :
    pkiSign cfg (some ("CERTIFICATE REQUEST", some csr))
        (fun _ => some (200, stream)) validityDays
      = Except.ok (stream, none) := by
  have hloop : extractLoop stream true [] = [] := by
    rw [extractLoop_step stream true [] start e hb he]
    simp only [if_pos rfl]
    exact extractLoop_of_none _ _ _ hrest
  have hchain : extractCAChain stream = none := by
    simp [extractCAChain, hloop]
  simp [pkiSign, parseResponse, containsSub, hb, hchain]

/-- C10 witness: the single-block theorem at the concrete sample block. -/
theorem pkiSign_single_block_nil_chain_witness :
    pkiSign legacyConfig (some ("CERTIFICATE REQUEST", some sampleCSR))
        (fun _ => some (200, sampleBlockA)) 365
      = Except.ok (sampleBlockA, none) :=
  pkiSign_single_block_nil_chain legacyConfig sampleCSR 365 sampleBlockA 0 30
    (by decide) (by decide) (by decide)

end ExternalIssuer